import Mathlib

/-!
Shallow embedding of the VideoSummary server (in-memory record store,
content pipeline `processVideo`, and the summary HTTP routes), together
with proofs about it.

Modelling conventions:
* `randomUUID` is modelled by a fresh-identifier counter `nextId` carried by
  the store; freshness is guaranteed by the well-formedness invariant `WF`.
* JavaScript `Map` objects are modelled as insertion-ordered association
  lists; `Map.set` replaces in place when the key is present and appends
  otherwise, and `Map.get` is `getEntry`.
* `new Date()` is modelled by a logical clock in `World`, advanced by `tick`.
* External collaborators (yt-dlp, ffmpeg/ffprobe, the OpenAI API, the
  filesystem) are an oracle record `Env` whose fields either return a value
  or raise an error message (`Except String`), mirroring thrown exceptions.
* Nullable columns are `Option` fields; TypeScript `Partial<T>` update
  objects are structures of `Option`-wrapped fields, merged by `apply*Patch`
  exactly as an object spread merges them.
* Each create/update of a processing-job record additionally appends the
  resulting record's (progress, currentStep, status) to a ghost `jobTrace`,
  observing the order of job writes.
-/

deriving instance DecidableEq for Except

namespace VideoSummary

/-- Identifiers; fresh ones are drawn from the store's counter. -/
abbrev Id := Nat

/-- A stored media item (the `videos` table). -/
structure Video where
  id : Id
  title : String
  originalUrl : Option String
  fileName : Option String
  duration : Option Int
  thumbnailUrl : Option String
  status : String
  createdAt : Nat
  deriving DecidableEq

/-- Draft fields accepted by `createVideo` (insertVideoSchema). -/
structure InsertVideo where
  title : String
  originalUrl : Option String := none
  fileName : Option String := none
  duration : Option Int := none
  thumbnailUrl : Option String := none
  status : Option String := none
  deriving DecidableEq

/-- A stored summary (the `summaries` table). -/
structure Summary where
  id : Id
  videoId : Id
  content : String
  style : String
  targetDuration : Int
  voiceId : String
  speechSpeed : String
  audioUrl : Option String
  finalVideoUrl : Option String
  isEdited : Bool
  createdAt : Nat
  deriving DecidableEq

/-- Draft fields accepted by `createSummary` (insertSummarySchema). -/
structure InsertSummary where
  videoId : Id
  content : String
  style : String
  targetDuration : Int
  voiceId : String
  speechSpeed : Option String := none
  deriving DecidableEq

/-- The opaque result payload stored on a completed processing job. -/
structure JobResult where
  summaryId : Id
  audioUrl : String
  deriving DecidableEq

/-- A stored processing job (the `processing_jobs` table). -/
structure ProcessingJob where
  id : Id
  videoId : Id
  status : String
  progress : Option Int
  currentStep : Option String
  error : Option String
  result : Option JobResult
  createdAt : Nat
  updatedAt : Nat
  deriving DecidableEq

/-- Draft fields accepted by `createProcessingJob`. -/
structure InsertProcessingJob where
  videoId : Id
  status : String
  progress : Option Int := none
  currentStep : Option String := none
  error : Option String := none
  result : Option JobResult := none
  deriving DecidableEq

/-- `Partial<Video>`: a field is overridden exactly when its entry is present. -/
structure VideoPatch where
  id : Option Id := none
  title : Option String := none
  originalUrl : Option (Option String) := none
  fileName : Option (Option String) := none
  duration : Option (Option Int) := none
  thumbnailUrl : Option (Option String) := none
  status : Option String := none
  createdAt : Option Nat := none
  deriving DecidableEq

/-- Object-spread merge of a `Partial<Video>` over a `Video`. -/
def applyVideoPatch (v : Video) (u : VideoPatch) : Video :=
  { id := u.id.getD v.id
    title := u.title.getD v.title
    originalUrl := u.originalUrl.getD v.originalUrl
    fileName := u.fileName.getD v.fileName
    duration := u.duration.getD v.duration
    thumbnailUrl := u.thumbnailUrl.getD v.thumbnailUrl
    status := u.status.getD v.status
    createdAt := u.createdAt.getD v.createdAt }

/-- `Partial<Summary>`. -/
structure SummaryPatch where
  id : Option Id := none
  videoId : Option Id := none
  content : Option String := none
  style : Option String := none
  targetDuration : Option Int := none
  voiceId : Option String := none
  speechSpeed : Option String := none
  audioUrl : Option (Option String) := none
  finalVideoUrl : Option (Option String) := none
  isEdited : Option Bool := none
  createdAt : Option Nat := none
  deriving DecidableEq

/-- Object-spread merge of a `Partial<Summary>` over a `Summary`. -/
def applySummaryPatch (s : Summary) (u : SummaryPatch) : Summary :=
  { id := u.id.getD s.id
    videoId := u.videoId.getD s.videoId
    content := u.content.getD s.content
    style := u.style.getD s.style
    targetDuration := u.targetDuration.getD s.targetDuration
    voiceId := u.voiceId.getD s.voiceId
    speechSpeed := u.speechSpeed.getD s.speechSpeed
    audioUrl := u.audioUrl.getD s.audioUrl
    finalVideoUrl := u.finalVideoUrl.getD s.finalVideoUrl
    isEdited := u.isEdited.getD s.isEdited
    createdAt := u.createdAt.getD s.createdAt }

/-- `Partial<ProcessingJob>`. -/
structure JobPatch where
  id : Option Id := none
  videoId : Option Id := none
  status : Option String := none
  progress : Option (Option Int) := none
  currentStep : Option (Option String) := none
  error : Option (Option String) := none
  result : Option (Option JobResult) := none
  createdAt : Option Nat := none
  updatedAt : Option Nat := none
  deriving DecidableEq

/-- Object-spread merge of a `Partial<ProcessingJob>` over a `ProcessingJob`. -/
def applyJobPatch (j : ProcessingJob) (u : JobPatch) : ProcessingJob :=
  { id := u.id.getD j.id
    videoId := u.videoId.getD j.videoId
    status := u.status.getD j.status
    progress := u.progress.getD j.progress
    currentStep := u.currentStep.getD j.currentStep
    error := u.error.getD j.error
    result := u.result.getD j.result
    createdAt := u.createdAt.getD j.createdAt
    updatedAt := u.updatedAt.getD j.updatedAt }

/-- `Map.get` on an insertion-ordered association list. -/
def getEntry {α : Type} (k : Id) : List (Id × α) → Option α
  | [] => none
  | (k', v) :: rest => if k = k' then some v else getEntry k rest

/-- `Map.set`: replace in place when the key is present, append otherwise. -/
def setEntry {α : Type} (k : Id) (v : α) : List (Id × α) → List (Id × α)
  | [] => [(k, v)]
  | (k', v') :: rest => if k = k' then (k, v) :: rest else (k', v') :: setEntry k v rest

/-- The in-memory store (class `MemStorage`). -/
structure MemStorage where
  videos : List (Id × Video) := []
  summaries : List (Id × Summary) := []
  processingJobs : List (Id × ProcessingJob) := []
  nextId : Id := 0
  deriving DecidableEq

/-- JavaScript `x || dflt` on a nullable string: `null`, `undefined` and the
empty string are all falsy. -/
def strOrDefault (s : Option String) (dflt : String) : String :=
  match s with
  | none => dflt
  | some s => if s = "" then dflt else s

/-- JavaScript truthiness test `if (x)` for a nullable string field. -/
def strOrEmpty (s : Option String) : String :=
  s.getD ""

/-- `MemStorage.createVideo`. -/
def createVideo (s : MemStorage) (insertVideo : InsertVideo) (now : Nat) :
    Video × MemStorage :=
  let id := s.nextId
  let video : Video :=
    { id := id
      title := insertVideo.title
      originalUrl := insertVideo.originalUrl
      fileName := insertVideo.fileName
      duration := insertVideo.duration
      thumbnailUrl := insertVideo.thumbnailUrl
      status := strOrDefault insertVideo.status "uploading"
      createdAt := now }
  (video, { s with videos := setEntry id video s.videos, nextId := s.nextId + 1 })

/-- `MemStorage.getVideo`. -/
def getVideo (s : MemStorage) (id : Id) : Option Video :=
  getEntry id s.videos

/-- `MemStorage.updateVideo`: throws "Video not found" on an unknown id. -/
def updateVideo (s : MemStorage) (id : Id) (updates : VideoPatch) :
    Except String (Video × MemStorage) :=
  match getEntry id s.videos with
  | none => .error "Video not found"
  | some video =>
    let updatedVideo := applyVideoPatch video updates
    .ok (updatedVideo, { s with videos := setEntry id updatedVideo s.videos })

/-- `MemStorage.createSummary`. -/
def createSummary (s : MemStorage) (insertSummary : InsertSummary) (now : Nat) :
    Summary × MemStorage :=
  let id := s.nextId
  let summary : Summary :=
    { id := id
      videoId := insertSummary.videoId
      content := insertSummary.content
      style := insertSummary.style
      targetDuration := insertSummary.targetDuration
      voiceId := insertSummary.voiceId
      speechSpeed := strOrDefault insertSummary.speechSpeed "1.0"
      audioUrl := none
      finalVideoUrl := none
      isEdited := false
      createdAt := now }
  (summary, { s with summaries := setEntry id summary s.summaries, nextId := s.nextId + 1 })

/-- `MemStorage.getSummary`. -/
def getSummary (s : MemStorage) (id : Id) : Option Summary :=
  getEntry id s.summaries

/-- `MemStorage.getSummaryByVideoId`: first match in insertion order. -/
def getSummaryByVideoId (s : MemStorage) (videoId : Id) : Option Summary :=
  (s.summaries.find? (fun p => p.2.videoId == videoId)).map (fun p => p.2)

/-- `MemStorage.updateSummary`: throws "Summary not found" on an unknown id. -/
def updateSummary (s : MemStorage) (id : Id) (updates : SummaryPatch) :
    Except String (Summary × MemStorage) :=
  match getEntry id s.summaries with
  | none => .error "Summary not found"
  | some summary =>
    let updatedSummary := applySummaryPatch summary updates
    .ok (updatedSummary, { s with summaries := setEntry id updatedSummary s.summaries })

/-- `MemStorage.createProcessingJob`. -/
def createProcessingJob (s : MemStorage) (insertJob : InsertProcessingJob) (now : Nat) :
    ProcessingJob × MemStorage :=
  let id := s.nextId
  let job : ProcessingJob :=
    { id := id
      videoId := insertJob.videoId
      status := insertJob.status
      progress := insertJob.progress
      currentStep := insertJob.currentStep
      error := insertJob.error
      result := insertJob.result
      createdAt := now
      updatedAt := now }
  (job, { s with processingJobs := setEntry id job s.processingJobs, nextId := s.nextId + 1 })

/-- `MemStorage.getProcessingJob`. -/
def getProcessingJob (s : MemStorage) (id : Id) : Option ProcessingJob :=
  getEntry id s.processingJobs

/-- `MemStorage.getProcessingJobByVideoId`: first match in insertion order. -/
def getProcessingJobByVideoId (s : MemStorage) (videoId : Id) : Option ProcessingJob :=
  (s.processingJobs.find? (fun p => p.2.videoId == videoId)).map (fun p => p.2)

/-- `MemStorage.updateProcessingJob`: merges the patch and refreshes
`updatedAt`; throws "Processing job not found" on an unknown id. -/
def updateProcessingJob (s : MemStorage) (id : Id) (updates : JobPatch) (now : Nat) :
    Except String (ProcessingJob × MemStorage) :=
  match getEntry id s.processingJobs with
  | none => .error "Processing job not found"
  | some job =>
    let updatedJob := { applyJobPatch job updates with updatedAt := now }
    .ok (updatedJob, { s with processingJobs := setEntry id updatedJob s.processingJobs })

/-- Metadata returned by `downloadYouTubeVideo` (yt-dlp). -/
structure VideoMetadata where
  title : String
  duration : Int
  thumbnail : String
  audioPath : String
  deriving DecidableEq

/-- Metadata returned by `getVideoMetadata` (ffprobe). -/
structure FileMetadata where
  duration : Int
  title : String
  deriving DecidableEq

/-- Structured insight returned by `analyzeVideoContent`. -/
structure VideoAnalysisResult where
  title : String
  keyPoints : List String
  topics : List String
  sentiment : String
  duration : Int
  deriving DecidableEq

/-- Structured summary returned by `generateSummary`. -/
structure SummaryResult where
  content : String
  keyHighlights : List String
  callToAction : String
  deriving DecidableEq

/-- The external collaborators (subprocess tools, model API, filesystem) as
oracles: each call either returns a value or raises an error message. -/
structure Env where
  downloadYouTubeVideo : String → Except String VideoMetadata
  getVideoMetadata : String → Except String FileMetadata
  extractAudioFromFile : String → Except String String
  readFile : String → Except String String
  transcribeAudio : String → Except String String
  analyzeVideoContent : String → String → Except String VideoAnalysisResult
  generateSummary : String → String → Int → VideoAnalysisResult → Except String SummaryResult
  generateSpeech : String → String → String → Except String String
  writeFile : String → String → Except String Unit

/-- One observed write of a processing-job record: the record's
(progress, currentStep, status) right after a create or update. -/
structure JobWrite where
  progress : Option Int
  currentStep : Option String
  status : String
  deriving DecidableEq

/-- The mutable world threaded through a run: the store, a logical clock
standing in for `new Date()`, a ghost trace of job writes, and the cleanup
batches scheduled via `setTimeout`. -/
structure World where
  store : MemStorage
  clock : Nat := 0
  jobTrace : List JobWrite := []
  cleanupsScheduled : List (List String) := []
  deriving DecidableEq

/-- Read the clock (`new Date()`) and advance it. -/
def tick (w : World) : Nat × World :=
  (w.clock, { w with clock := w.clock + 1 })

/-- Append a job write to the ghost trace. -/
def recordJobWrite (w : World) (j : ProcessingJob) : World :=
  { w with jobTrace := w.jobTrace ++
      [{ progress := j.progress, currentStep := j.currentStep, status := j.status }] }

/-- `process.cwd()`, a fixed string in this model. -/
def cwd : String := "/repo"

/-- `path.join(process.cwd(), "temp/uploads", fileName)`. -/
def uploadsPath (fileName : String) : String :=
  cwd ++ "/temp/uploads/" ++ fileName

/-- The pipeline's speech output path for a media item. -/
def speechPath (videoId : Id) : String :=
  cwd ++ "/temp/" ++ toString videoId ++ "_speech.mp3"

/-- The regenerate-audio route's output path for a media item. -/
def updatedSpeechPath (videoId : Id) : String :=
  cwd ++ "/temp/" ++ toString videoId ++ "_speech_updated.mp3"

/-- `processVideo` from the `generating_audio` checkpoint to the end of the
try block: synthesize speech, write it, advance to `creating_video`, store
the audio references on the summary, complete the job and the video, and
schedule the deferred cleanup. -/
def pipelineFromGeneratingAudio (env : Env) (videoId : Id) (jobId : Id)
    (audioPath : String) (summary : Summary) (summaryResult : SummaryResult)
    (w : World) : Except String Unit × World :=
  let (now, w1) := tick w
  match updateProcessingJob w1.store jobId
      { progress := some (some 70), currentStep := some (some "generating_audio") } now with
  | .error e => (.error e, w1)
  | .ok (j1, st1) =>
    let w2 := recordJobWrite { w1 with store := st1 } j1
    match env.generateSpeech summaryResult.content summary.voiceId summary.speechSpeed with
    | .error e => (.error e, w2)
    | .ok speechBuffer =>
      let audioOutputPath := speechPath videoId
      match env.writeFile audioOutputPath speechBuffer with
      | .error e => (.error e, w2)
      | .ok _ =>
        let (now2, w3) := tick w2
        match updateProcessingJob w3.store jobId
            { progress := some (some 90), currentStep := some (some "creating_video") } now2 with
        | .error e => (.error e, w3)
        | .ok (j2, st2) =>
          let w4 := recordJobWrite { w3 with store := st2 } j2
          match updateSummary w4.store summary.id
              { audioUrl := some (some audioOutputPath),
                finalVideoUrl := some (some audioOutputPath) } with
          | .error e => (.error e, w4)
          | .ok (_, st3) =>
            let w5 := { w4 with store := st3 }
            let (now3, w6) := tick w5
            match updateProcessingJob w6.store jobId
                { status := some "completed", progress := some (some 100),
                  currentStep := some (some "completed"),
                  result := some (some { summaryId := summary.id, audioUrl := audioOutputPath }) }
                now3 with
            | .error e => (.error e, w6)
            | .ok (j3, st4) =>
              let w7 := recordJobWrite { w6 with store := st4 } j3
              match updateVideo w7.store videoId { status := some "completed" } with
              | .error e => (.error e, w7)
              | .ok (_, st5) =>
                let w8 := { w7 with store := st5 }
                (.ok (), { w8 with cleanupsScheduled :=
                    w8.cleanupsScheduled ++ [[audioPath, audioOutputPath]] })

/-- `processVideo` from the `summarizing` checkpoint: analyze the content,
fetch or lazily create the summary row, generate and persist the summary
text, then continue with audio generation. -/
def pipelineFromSummarizing (env : Env) (videoId : Id) (video : Video) (jobId : Id)
    (audioPath : String) (transcript : String) (w : World) :
    Except String Unit × World :=
  let (now, w1) := tick w
  match updateProcessingJob w1.store jobId
      { progress := some (some 50), currentStep := some (some "summarizing") } now with
  | .error e => (.error e, w1)
  | .ok (j1, st1) =>
    let w2 := recordJobWrite { w1 with store := st1 } j1
    match env.analyzeVideoContent transcript video.title with
    | .error e => (.error e, w2)
    | .ok analysis =>
      let fetched :=
        match getSummaryByVideoId w2.store videoId with
        | some summary => (summary, w2)
        | none =>
          let (now2, w2a) := tick w2
          let (created, st2) := createSummary w2a.store
            { videoId := videoId, content := "", style := "informative",
              targetDuration := 60, voiceId := "alloy", speechSpeed := some "1.0" } now2
          (created, { w2a with store := st2 })
      let summary := fetched.1
      let w3 := fetched.2
      match env.generateSummary transcript summary.style summary.targetDuration analysis with
      | .error e => (.error e, w3)
      | .ok summaryResult =>
        match updateSummary w3.store summary.id { content := some summaryResult.content } with
        | .error e => (.error e, w3)
        | .ok (_, st3) =>
          pipelineFromGeneratingAudio env videoId jobId audioPath summary summaryResult
            { w3 with store := st3 }

/-- `processVideo` from the `transcribing` checkpoint: read the extracted
audio, transcribe it, then continue with summarization. -/
def pipelineFromTranscribing (env : Env) (videoId : Id) (video : Video) (jobId : Id)
    (audioPath : String) (w : World) : Except String Unit × World :=
  let (now, w1) := tick w
  match updateProcessingJob w1.store jobId
      { progress := some (some 30), currentStep := some (some "transcribing") } now with
  | .error e => (.error e, w1)
  | .ok (j1, st1) =>
    let w2 := recordJobWrite { w1 with store := st1 } j1
    match env.readFile audioPath with
    | .error e => (.error e, w2)
    | .ok audioBuffer =>
      match env.transcribeAudio audioBuffer with
      | .error e => (.error e, w2)
      | .ok transcript =>
        pipelineFromSummarizing env videoId video jobId audioPath transcript w2

/-- The try block of `processVideo`: look up the video, create the job,
advance to the 10% checkpoint, acquire the media through the variant picked
by the populated source field, then run the remaining stages. -/
def processVideoTry (env : Env) (videoId : Id) (w0 : World) :
    Except String Unit × World :=
  match getVideo w0.store videoId with
  | none => (.error "Video not found", w0)
  | some video =>
    let (now1, w1) := tick w0
    let (job, st1) := createProcessingJob w1.store
      { videoId := videoId, status := "processing", progress := some 0,
        currentStep := some "analyzing" } now1
    let w2 := recordJobWrite { w1 with store := st1 } job
    let (now2, w3) := tick w2
    match updateProcessingJob w3.store job.id
        { progress := some (some 10), currentStep := some (some "analyzing") } now2 with
    | .error e => (.error e, w3)
    | .ok (j1, st2) =>
      let w4 := recordJobWrite { w3 with store := st2 } j1
      if strOrEmpty video.originalUrl ≠ "" then
        match env.downloadYouTubeVideo (strOrEmpty video.originalUrl) with
        | .error e => (.error e, w4)
        | .ok metadata =>
          match updateVideo w4.store videoId
              { title := some metadata.title, duration := some (some metadata.duration),
                thumbnailUrl := some (some metadata.thumbnail) } with
          | .error e => (.error e, w4)
          | .ok (_, st3) =>
            pipelineFromTranscribing env videoId video job.id metadata.audioPath
              { w4 with store := st3 }
      else if strOrEmpty video.fileName ≠ "" then
        let filePath := uploadsPath (strOrEmpty video.fileName)
        match env.getVideoMetadata filePath with
        | .error e => (.error e, w4)
        | .ok metadata =>
          match env.extractAudioFromFile filePath with
          | .error e => (.error e, w4)
          | .ok audioPath =>
            match updateVideo w4.store videoId
                { duration := some (some metadata.duration) } with
            | .error e => (.error e, w4)
            | .ok (_, st3) =>
              pipelineFromTranscribing env videoId video job.id audioPath
                { w4 with store := st3 }
      else
        (.error "No video source available", w4)

/-- `processVideo`: the try block plus the catch handler, which looks the job
up again by media-item identifier, marks it failed with the captured message,
and marks the video failed. -/
def processVideo (env : Env) (videoId : Id) (w : World) :
    Except String Unit × World :=
  match processVideoTry env videoId w with
  | (.ok _, w1) => (.ok (), w1)
  | (.error e, w1) =>
    match getProcessingJobByVideoId w1.store videoId with
    | some job =>
      let (now, w2) := tick w1
      match updateProcessingJob w2.store job.id
          { status := some "failed", error := some (some e) } now with
      | .error e2 => (.error e2, w2)
      | .ok (j1, st1) =>
        let w3 := recordJobWrite { w2 with store := st1 } j1
        match updateVideo w3.store videoId { status := some "failed" } with
        | .error e3 => (.error e3, w3)
        | .ok (_, st2) => (.ok (), { w3 with store := st2 })
    | none =>
      match updateVideo w1.store videoId { status := some "failed" } with
      | .error e3 => (.error e3, w1)
      | .ok (_, st2) => (.ok (), { w1 with store := st2 })

/-- The `PATCH /api/summaries/:id` handler: validate the body
(`content` must be a non-empty string), merge it with `isEdited: true`,
and answer 200 with the updated summary, or 400 on any failure. -/
def patchSummaryRoute (s : MemStorage) (id : Id) (content : String) :
    (Nat × Option Summary) × MemStorage :=
  if content = "" then ((400, none), s)
  else
    match updateSummary s id { content := some content, isEdited := some true } with
    | .error _ => ((400, none), s)
    | .ok (summary, s') => ((200, some summary), s')

/-- The `POST /api/summaries/:id/regenerate-audio` handler: fetch the
summary, synthesize speech from its current content, write it to the fixed
per-item updated-speech path, and store that path as the summary's audioUrl. -/
def regenerateAudioRoute (env : Env) (s : MemStorage) (id : Id) :
    (Nat × Option Summary) × MemStorage :=
  match getSummary s id with
  | none => ((404, none), s)
  | some summary =>
    match env.generateSpeech summary.content summary.voiceId summary.speechSpeed with
    | .error _ => ((500, none), s)
    | .ok speechBuffer =>
      let audioOutputPath := updatedSpeechPath summary.videoId
      match env.writeFile audioOutputPath speechBuffer with
      | .error _ => ((500, none), s)
      | .ok _ =>
        match updateSummary s summary.id { audioUrl := some (some audioOutputPath) } with
        | .error _ => ((500, none), s)
        | .ok (updatedSummary, s') => ((200, some updatedSummary), s')

/-- Keys of an association list are all below the store's counter. -/
def keysBelow {α : Type} (l : List (Id × α)) (n : Nat) : Prop :=
  ∀ p ∈ l, p.1 < n

/-- Store well-formedness: every held key is below the fresh-id counter. -/
def WF (s : MemStorage) : Prop :=
  keysBelow s.videos s.nextId ∧ keysBelow s.summaries s.nextId ∧
    keysBelow s.processingJobs s.nextId

/-- The empty store. -/
def stEmpty : MemStorage := {}

/-- A concrete oracle on which every external call succeeds. -/
def sampleEnvOk : Env :=
  { downloadYouTubeVideo := fun _ =>
      .ok { title := "T", duration := 42, thumbnail := "th.webp", audioPath := "/repo/temp/a.mp3" }
    getVideoMetadata := fun _ => .ok { duration := 9, title := "F" }
    extractAudioFromFile := fun _ => .ok "/repo/temp/b.mp3"
    readFile := fun _ => .ok "audiobytes"
    transcribeAudio := fun _ => .ok "the transcript"
    analyzeVideoContent := fun _ _ =>
      .ok { title := "A", keyPoints := [], topics := [], sentiment := "positive", duration := 42 }
    generateSummary := fun _ _ _ _ =>
      .ok { content := "a great video", keyHighlights := [], callToAction := "subscribe" }
    generateSpeech := fun _ _ _ => .ok "speechbytes"
    writeFile := fun _ _ => .ok () }

/-- A concrete oracle whose transcription call fails. -/
def sampleEnvFail : Env :=
  { sampleEnvOk with transcribeAudio := fun _ => .error "transcription unavailable" }

/-- A concrete media item with a remote source. -/
def sampleVideo : Video :=
  { id := 0, title := "Processing...", originalUrl := some "http://yt/v", fileName := none,
    duration := none, thumbnailUrl := none, status := "processing", createdAt := 0 }

/-- A world holding only `sampleVideo`. -/
def sampleWorld : World :=
  { store := { videos := [(0, sampleVideo)], nextId := 1 } }

/-- A world with an empty store. -/
def emptyWorld : World :=
  { store := stEmpty }

/-- A concrete summary owned by media item 7. -/
def sampleSummary : Summary :=
  { id := 1, videoId := 7, content := "hello", style := "informative", targetDuration := 60,
    voiceId := "alloy", speechSpeed := "1.0", audioUrl := none, finalVideoUrl := none,
    isEdited := false, createdAt := 0 }

/-- A store holding only `sampleSummary`. -/
def sampleSummaryStore : MemStorage :=
  { summaries := [(1, sampleSummary)], nextId := 2 }

/-- A concrete summary owned by media item 0 (for pipeline runs). -/
def samplePipelineSummary : Summary :=
  { sampleSummary with videoId := 0 }

/-- A world holding `sampleVideo` and its pre-existing summary. -/
def sampleWorldWithSummary : World :=
  { store := { videos := [(0, sampleVideo)], summaries := [(1, samplePipelineSummary)],
               nextId := 2 } }

/-- A concrete media item without any source field. -/
def sampleSourcelessVideo : Video :=
  { sampleVideo with originalUrl := none, fileName := none }

/-- A world holding only `sampleSourcelessVideo`. -/
def sampleSourcelessWorld : World :=
  { store := { videos := [(0, sampleSourcelessVideo)], nextId := 1 } }

/-- The job record as it stands right after the 10% `analyzing` checkpoint. -/
def analyzedJob (videoId : Id) (w : World) : ProcessingJob :=
  { id := w.store.nextId, videoId := videoId, status := "processing", progress := some 10,
    currentStep := some "analyzing", error := none, result := none,
    createdAt := w.clock, updatedAt := w.clock + 1 }

/-- The world right after a successful remote (yt-dlp) acquisition. -/
def ytMidWorld (videoId : Id) (video : Video) (md : VideoMetadata) (w : World) : World :=
  { store :=
      { videos :=
          setEntry videoId
            { video with
              title := md.title, duration := some md.duration,
              thumbnailUrl := some md.thumbnail }
            w.store.videos,
        summaries := w.store.summaries,
        processingJobs :=
          setEntry w.store.nextId (analyzedJob videoId w) w.store.processingJobs,
        nextId := w.store.nextId + 1 },
    clock := w.clock + 1 + 1,
    jobTrace :=
      w.jobTrace ++ [⟨some 0, some "analyzing", "processing"⟩] ++
        [⟨some 10, some "analyzing", "processing"⟩],
    cleanupsScheduled := w.cleanupsScheduled }

/-- The world right after a successful local-upload (ffprobe and ffmpeg)
acquisition. -/
def uploadMidWorld (videoId : Id) (video : Video) (fm : FileMetadata) (w : World) : World :=
  { store :=
      { videos :=
          setEntry videoId
            { video with duration := some fm.duration }
            w.store.videos,
        summaries := w.store.summaries,
        processingJobs :=
          setEntry w.store.nextId (analyzedJob videoId w) w.store.processingJobs,
        nextId := w.store.nextId + 1 },
    clock := w.clock + 1 + 1,
    jobTrace :=
      w.jobTrace ++ [⟨some 0, some "analyzing", "processing"⟩] ++
        [⟨some 10, some "analyzing", "processing"⟩],
    cleanupsScheduled := w.cleanupsScheduled }

/-! ## Lemmas about the association-list map -/

theorem getEntry_setEntry_self {α : Type} (k : Id) (v : α) (l : List (Id × α)) :
    getEntry k (setEntry k v l) = some v := by
  induction l with
  | nil => simp [getEntry, setEntry]
  | cons p rest ih =>
    obtain ⟨k', v'⟩ := p
    by_cases h : k = k' <;> simp [getEntry, setEntry, h, ih]

theorem getEntry_setEntry_ne {α : Type} (k k' : Id) (v : α) (l : List (Id × α))
    (h : k' ≠ k) : getEntry k' (setEntry k v l) = getEntry k' l := by
  induction l with
  | nil => simp [getEntry, setEntry, h]
  | cons p rest ih =>
    obtain ⟨k₀, v₀⟩ := p
    by_cases hk : k = k₀
    · subst hk
      simp [getEntry, setEntry, h]
    · by_cases hk' : k' = k₀ <;> simp [getEntry, setEntry, hk, hk', ih]

theorem setEntry_setEntry {α : Type} (k : Id) (v v' : α) (l : List (Id × α)) :
    setEntry k v' (setEntry k v l) = setEntry k v' l := by
  induction l with
  | nil => simp [setEntry]
  | cons p rest ih =>
    obtain ⟨k₀, v₀⟩ := p
    by_cases hk : k = k₀ <;> simp [setEntry, hk, ih]

theorem find?_setEntry_of_none {α : Type} (p : Id × α → Bool) (k : Id) (v : α)
    (l : List (Id × α)) (hl : l.find? p = none) (hv : p (k, v) = true) :
    (setEntry k v l).find? p = some (k, v) := by
  induction l with
  | nil => simp [setEntry, List.find?, hv]
  | cons q rest ih =>
    obtain ⟨k₀, v₀⟩ := q
    rw [List.find?_cons] at hl
    rcases h₀ : p (k₀, v₀) with _ | _
    · rw [h₀] at hl
      simp only [Bool.false_eq_true, reduceIte] at hl
      by_cases hk : k = k₀
      · subst hk
        simp [setEntry, List.find?, h₀, hv]
      · simp [setEntry, hk, List.find?, h₀, ih hl]
    · rw [h₀] at hl
      simp at hl

theorem getEntry_eq_none_of_keysBelow {α : Type} (l : List (Id × α)) (n : Nat)
    (h : keysBelow l n) : getEntry n l = none := by
  induction l with
  | nil => simp [getEntry]
  | cons p rest ih =>
    obtain ⟨k₀, v₀⟩ := p
    have hk : k₀ < n := h (k₀, v₀) (List.mem_cons_self _ _)
    have hne : n ≠ k₀ := fun hEq => absurd (hEq ▸ hk) (lt_irrefl _)
    simp only [getEntry, hne, reduceIte]
    exact ih (fun q hq => h q (List.mem_cons_of_mem _ hq))

/-! ## Claim theorems -/

/-- C5: each of the store's lookup operations `getVideo`, `getSummary` and
`getProcessingJob` returns the stored record when the identifier is present
and the explicit not-found signal `none` when it is absent; being total
`Option`-valued functions, they never throw. -/
theorem C5_lookups_never_throw (s : MemStorage) (id : Id) :
    (∀ v, getEntry id s.videos = some v → getVideo s id = some v) ∧
    (getEntry id s.videos = none → getVideo s id = none) ∧
    (∀ x, getEntry id s.summaries = some x → getSummary s id = some x) ∧
    (getEntry id s.summaries = none → getSummary s id = none) ∧
    (∀ j, getEntry id s.processingJobs = some j → getProcessingJob s id = some j) ∧
    (getEntry id s.processingJobs = none → getProcessingJob s id = none) :=
  ⟨fun _ h => h, fun h => h, fun _ h => h, fun h => h, fun _ h => h, fun h => h⟩

/-- Witness for C5 at concrete inputs: lookups on a store answer the stored
record when present and `none` when absent. -/
theorem C5_lookups_never_throw_witness :
    getVideo sampleWorld.store 0 = some sampleVideo ∧
    getVideo stEmpty 5 = none ∧ getSummary stEmpty 5 = none ∧
    getProcessingJob stEmpty 5 = none :=
  ⟨(C5_lookups_never_throw sampleWorld.store 0).1 sampleVideo (by decide),
   (C5_lookups_never_throw stEmpty 5).2.1 rfl,
   (C5_lookups_never_throw stEmpty 5).2.2.2.1 rfl,
   (C5_lookups_never_throw stEmpty 5).2.2.2.2.2 rfl⟩

/-- C6: each update operation fails with its not-found error when the
identifier is absent (leaving the store untouched, since the error result
carries no modified store), and otherwise returns the existing record with
the partial fields merged over it, storing it back under the same key;
`updateProcessingJob` additionally sets the record's `updatedAt` to the
current time. -/
theorem C6_update_contract (s : MemStorage) (id : Id) (uv : VideoPatch)
    (us : SummaryPatch) (uj : JobPatch) (now : Nat) :
    (getEntry id s.videos = none → updateVideo s id uv = .error "Video not found") ∧
    (∀ v, getEntry id s.videos = some v →
      updateVideo s id uv = .ok (applyVideoPatch v uv,
        { s with videos := setEntry id (applyVideoPatch v uv) s.videos })) ∧
    (getEntry id s.summaries = none → updateSummary s id us = .error "Summary not found") ∧
    (∀ x, getEntry id s.summaries = some x →
      updateSummary s id us = .ok (applySummaryPatch x us,
        { s with summaries := setEntry id (applySummaryPatch x us) s.summaries })) ∧
    (getEntry id s.processingJobs = none →
      updateProcessingJob s id uj now = .error "Processing job not found") ∧
    (∀ j, getEntry id s.processingJobs = some j →
      updateProcessingJob s id uj now =
        .ok ({ applyJobPatch j uj with updatedAt := now },
          { s with processingJobs :=
              setEntry id { applyJobPatch j uj with updatedAt := now } s.processingJobs }) ∧
      ({ applyJobPatch j uj with updatedAt := now } : ProcessingJob).updatedAt = now) := by
  refine ⟨fun h => ?_, fun v h => ?_, fun h => ?_, fun x h => ?_, fun h => ?_, fun j h => ?_⟩
  · simp [updateVideo, h]
  · simp [updateVideo, h]
  · simp [updateSummary, h]
  · simp [updateSummary, h]
  · simp [updateProcessingJob, h]
  · simp [updateProcessingJob, h]

/-- Witness for C6 at concrete inputs: updating an absent id fails with the
not-found error, updating a present id merges the patch, and the job update
refreshes `updatedAt`. -/
theorem C6_update_contract_witness :
    updateVideo stEmpty 5 { status := some "failed" } = .error "Video not found" ∧
    updateSummary sampleSummaryStore 1 { content := some "new", isEdited := some true } =
      .ok (applySummaryPatch sampleSummary { content := some "new", isEdited := some true },
        { sampleSummaryStore with
          summaries :=
            setEntry 1
              (applySummaryPatch sampleSummary
                { content := some "new", isEdited := some true })
              sampleSummaryStore.summaries }) ∧
    updateProcessingJob stEmpty 5 { status := some "failed" } 3 =
      .error "Processing job not found" :=
  ⟨(C6_update_contract stEmpty 5 { status := some "failed" } ({} : SummaryPatch)
      ({} : JobPatch) 0).1 rfl,
   (C6_update_contract sampleSummaryStore 1 ({} : VideoPatch)
      { content := some "new", isEdited := some true } ({} : JobPatch) 0).2.2.2.1
      sampleSummary (by decide),
   (C6_update_contract stEmpty 5 ({} : VideoPatch) ({} : SummaryPatch)
      { status := some "failed" } 3).2.2.2.2.1 rfl⟩

/-- C7: patching a stored summary with a non-empty content string answers
200 with the updated summary; the stored record now carries exactly that
content and `isEdited = true`, and a subsequent fetch returns it. -/
theorem C7_patch_summary_sets_content (s : MemStorage) (id : Id) (content : String)
    (s0 : Summary) (hs : getEntry id s.summaries = some s0) (hc : content ≠ "") :
    ∃ s' st, patchSummaryRoute s id content = ((200, some s'), st) ∧
      getSummary st id = some s' ∧ s'.content = content ∧ s'.isEdited = true ∧
      s'.id = s0.id ∧ s'.videoId = s0.videoId ∧ s'.style = s0.style ∧
      s'.audioUrl = s0.audioUrl := by
  refine ⟨applySummaryPatch s0 { content := some content, isEdited := some true },
    { s with
      summaries :=
        setEntry id
          (applySummaryPatch s0 { content := some content, isEdited := some true })
          s.summaries },
    ?_, ?_, ?_, ?_, ?_, ?_, ?_, ?_⟩
  · simp [patchSummaryRoute, hc, updateSummary, hs]
  · simp [getSummary, getEntry_setEntry_self]
  · simp [applySummaryPatch]
  · simp [applySummaryPatch]
  · simp [applySummaryPatch]
  · simp [applySummaryPatch]
  · simp [applySummaryPatch]
  · simp [applySummaryPatch]

/-- Witness for C7 at concrete inputs: patching `sampleSummary` with "new
text" stores it verbatim with the edited flag set. -/
theorem C7_patch_summary_sets_content_witness :
    ∃ s' st, patchSummaryRoute sampleSummaryStore 1 "new text" = ((200, some s'), st) ∧
      getSummary st 1 = some s' ∧ s'.content = "new text" ∧ s'.isEdited = true ∧
      s'.id = sampleSummary.id ∧ s'.videoId = sampleSummary.videoId ∧
      s'.style = sampleSummary.style ∧ s'.audioUrl = sampleSummary.audioUrl :=
  C7_patch_summary_sets_content sampleSummaryStore 1 "new text" sampleSummary
    (by decide) (by decide)

/-- C9: invoking the pipeline on an identifier for which no video is stored
(and for which no stale job exists) creates no job, mutates nothing, and
does not terminate cleanly: the catch handler's own `updateVideo` throws a
second not-found error, so `processVideo` rejects with it, the world coming
back exactly as it went in. -/
theorem C9_missing_video_rejects (env : Env) (videoId : Id) (w : World)
    (hv : getVideo w.store videoId = none)
    (hj : getProcessingJobByVideoId w.store videoId = none) :
    processVideo env videoId w = (.error "Video not found", w) := by
  have hv' : getEntry videoId w.store.videos = none := hv
  simp [processVideo, processVideoTry, hv, hj, updateVideo, hv']

/-- Witness for C9 at concrete inputs: running the pipeline on id 3 over an
empty store rejects with the not-found error and leaves the world unchanged. -/
theorem C9_missing_video_rejects_witness :
    processVideo sampleEnvOk 3 emptyWorld = (.error "Video not found", emptyWorld) :=
  C9_missing_video_rejects sampleEnvOk 3 emptyWorld rfl rfl

/-- C4 counterexample: a draft whose status field is "completed" is stored
and looked up with status "completed", which is neither "uploading" nor
"processing"; so the claim's final clause fails for arbitrary drafts. -/
theorem C4_counterexample_status :
    (getVideo (createVideo stEmpty { title := "t", status := some "completed" } 0).2
        ((createVideo stEmpty { title := "t", status := some "completed" } 0).1).id).map
      (fun v => v.status) = some "completed" ∧
    ("completed" : String) ≠ "uploading" ∧ ("completed" : String) ≠ "processing" := by
  refine ⟨by decide, by decide, by decide⟩

/-- C4 (amended): on a well-formed store, `createVideo` assigns the fresh
counter value as identifier — distinct from every identifier already held in
any of the three maps — null-coalesces the optional fields, defaults the
status to "uploading" when the draft gives none (or the empty string),
stamps the creation time, stores the record and returns it; an immediately
subsequent `getVideo` returns that record, and its status is "uploading" or
"processing" whenever the draft's status was absent, empty, "uploading" or
"processing" (as it is at every call site in the repository). -/
theorem C4_create_video_contract (s : MemStorage) (d : InsertVideo) (now : Nat)
    (hwf : WF s) :
    ∃ v s', createVideo s d now = (v, s') ∧
      v.id = s.nextId ∧
      getEntry v.id s.videos = none ∧ getEntry v.id s.summaries = none ∧
      getEntry v.id s.processingJobs = none ∧
      getVideo s' v.id = some v ∧
      v.title = d.title ∧ v.originalUrl = d.originalUrl ∧ v.fileName = d.fileName ∧
      v.duration = d.duration ∧ v.thumbnailUrl = d.thumbnailUrl ∧
      v.status = strOrDefault d.status "uploading" ∧ v.createdAt = now ∧
      s'.nextId = s.nextId + 1 ∧
      ((d.status = none ∨ d.status = some "" ∨ d.status = some "uploading" ∨
          d.status = some "processing") →
        v.status = "uploading" ∨ v.status = "processing") := by
  obtain ⟨hwv, hws, hwj⟩ := hwf
  refine ⟨_, _, rfl, rfl, getEntry_eq_none_of_keysBelow _ _ hwv,
    getEntry_eq_none_of_keysBelow _ _ hws, getEntry_eq_none_of_keysBelow _ _ hwj,
    ?_, rfl, rfl, rfl, rfl, rfl, rfl, rfl, rfl, ?_⟩
  · simp [createVideo, getVideo, getEntry_setEntry_self]
  · rintro (h | h | h | h) <;> simp [createVideo, strOrDefault, h]

/-- Witness for C4 at concrete inputs: creating a draft with no status over
a well-formed one-entry store yields a fresh id and an "uploading" record. -/
theorem C4_create_video_contract_witness :
    ∃ v s', createVideo sampleWorld.store { title := "clip" } 5 = (v, s') ∧
      v.id = sampleWorld.store.nextId ∧
      getEntry v.id sampleWorld.store.videos = none ∧
      getEntry v.id sampleWorld.store.summaries = none ∧
      getEntry v.id sampleWorld.store.processingJobs = none ∧
      getVideo s' v.id = some v ∧
      v.title = "clip" ∧ v.originalUrl = none ∧ v.fileName = none ∧
      v.duration = none ∧ v.thumbnailUrl = none ∧
      v.status = strOrDefault none "uploading" ∧ v.createdAt = 5 ∧
      s'.nextId = sampleWorld.store.nextId + 1 ∧
      ((none = (none : Option String) ∨ (none : Option String) = some "" ∨
          (none : Option String) = some "uploading" ∨
          (none : Option String) = some "processing") →
        v.status = "uploading" ∨ v.status = "processing") :=
  C4_create_video_contract sampleWorld.store { title := "clip" } 5
    (by refine ⟨?_, ?_, ?_⟩ <;> intro p hp <;> simp [sampleWorld] at hp <;> simp [sampleWorld, hp])

/-- C2: whenever any pipeline stage (the try block) raises an exception, the
single outer catch converts it — the processing job looked up again by
media-item identifier is updated to status "failed" carrying the captured
message, the media item is updated to status "failed" — and `processVideo`
resolves without rethrowing, retrying or escalating. -/
theorem C2_catch_converts_failure (env : Env) (videoId : Id) (w w1 : World)
    (e : String) (job : ProcessingJob) (v : Video)
    (htry : processVideoTry env videoId w = (.error e, w1))
    (hjob : getProcessingJobByVideoId w1.store videoId = some job)
    (hjid : getEntry job.id w1.store.processingJobs = some job)
    (hvid : getEntry videoId w1.store.videos = some v) :
    ∃ w2 j', processVideo env videoId w = (.ok (), w2) ∧
      getEntry job.id w2.store.processingJobs = some j' ∧
      j'.status = "failed" ∧ j'.error = some e ∧
      getVideo w2.store videoId = some (applyVideoPatch v { status := some "failed" }) ∧
      (applyVideoPatch v { status := some "failed" }).status = "failed" := by
  simp only [processVideo, htry, hjob, tick, recordJobWrite, updateProcessingJob, hjid,
    updateVideo, hvid]
  refine ⟨_, { applyJobPatch job { status := some "failed", error := some (some e) } with
               updatedAt := w1.clock }, rfl, ?_, ?_, ?_, ?_, ?_⟩
  · simp [getEntry_setEntry_self]
  · simp [applyJobPatch]
  · simp [applyJobPatch]
  · simp [getVideo, getEntry_setEntry_self]
  · simp [applyVideoPatch]

/-- Witness for C2 at concrete inputs: a run whose transcription call fails
ends with the job and the video marked failed and the promise resolved. -/
theorem C2_catch_converts_failure_witness :
    ∃ w2 j', processVideo sampleEnvFail 0 sampleWorld = (.ok (), w2) ∧
      getEntry 1 w2.store.processingJobs = some j' ∧
      j'.status = "failed" ∧ j'.error = some "transcription unavailable" ∧
      getVideo w2.store 0 = some (applyVideoPatch
        { id := 0, title := "T", originalUrl := some "http://yt/v", fileName := none,
          duration := some 42, thumbnailUrl := some "th.webp", status := "processing",
          createdAt := 0 } { status := some "failed" }) ∧
      (applyVideoPatch
        { id := 0, title := "T", originalUrl := some "http://yt/v", fileName := none,
          duration := some 42, thumbnailUrl := some "th.webp", status := "processing",
          createdAt := 0 } { status := some "failed" }).status = "failed" :=
  C2_catch_converts_failure sampleEnvFail 0 sampleWorld
    (processVideoTry sampleEnvFail 0 sampleWorld).2 "transcription unavailable"
    { id := 1, videoId := 0, status := "processing", progress := some 30,
      currentStep := some "transcribing", error := none, result := none,
      createdAt := 0, updatedAt := 2 }
    { id := 0, title := "T", originalUrl := some "http://yt/v", fileName := none,
      duration := some 42, thumbnailUrl := some "th.webp", status := "processing",
      createdAt := 0 }
    (by decide) (by decide) (by decide) (by decide)

/-- C3: on a media item whose source URL and uploaded-file fields are both
null (and with no stale job for it), the pipeline fails with the
"No video source available" error — the job and the item end up marked
failed — and no acquisition, transcription or summarization capability is
invoked: the run's outcome is independent of the external oracle. -/
theorem C3_no_source_fails (env : Env) (videoId : Id) (w : World) (video : Video)
    (hv : getVideo w.store videoId = some video)
    (hu : video.originalUrl = none) (hf : video.fileName = none)
    (hnj : getProcessingJobByVideoId w.store videoId = none) :
    ∃ w' j v', processVideo env videoId w = (.ok (), w') ∧
      getProcessingJobByVideoId w'.store videoId = some j ∧
      j.status = "failed" ∧ j.error = some "No video source available" ∧
      getVideo w'.store videoId = some v' ∧ v'.status = "failed" ∧
      (∀ env₂ : Env, processVideo env₂ videoId w = processVideo env videoId w) := by
  have hv' : getEntry videoId w.store.videos = some video := hv
  have hfind : w.store.processingJobs.find? (fun p => p.2.videoId == videoId) = none := by
    simpa [getProcessingJobByVideoId] using hnj
  have h1 := find?_setEntry_of_none (fun p => p.2.videoId == videoId) w.store.nextId
    ({ id := w.store.nextId, videoId := videoId, status := "processing", progress := some 10,
       currentStep := some "analyzing", error := none, result := none, createdAt := w.clock,
       updatedAt := w.clock + 1 } : ProcessingJob) w.store.processingJobs hfind (by simp)
  have h2 := find?_setEntry_of_none (fun p => p.2.videoId == videoId) w.store.nextId
    ({ id := w.store.nextId, videoId := videoId, status := "failed", progress := some 10,
       currentStep := some "analyzing", error := some "No video source available",
       result := none, createdAt := w.clock,
       updatedAt := w.clock + 1 + 1 } : ProcessingJob) w.store.processingJobs hfind (by simp)
  simp only [processVideo, processVideoTry, getVideo, hv', createProcessingJob,
    updateProcessingJob, getEntry_setEntry_self, setEntry_setEntry, recordJobWrite, tick,
    strOrEmpty, hu, hf, Option.getD_none, Option.getD_some, ne_eq, not_true_eq_false, if_false,
    getProcessingJobByVideoId, updateVideo, applyJobPatch, applyVideoPatch,
    h1, h2, Option.map_some, Option.map_some', beq_self_eq_true]
  refine ⟨_,
    ({ id := w.store.nextId, videoId := videoId, status := "failed", progress := some 10,
       currentStep := some "analyzing", error := some "No video source available",
       result := none, createdAt := w.clock,
       updatedAt := w.clock + 1 + 1 } : ProcessingJob),
    ({ id := video.id, title := video.title, originalUrl := none, fileName := none,
       duration := video.duration, thumbnailUrl := video.thumbnailUrl, status := "failed",
       createdAt := video.createdAt } : Video),
    rfl, ?_, rfl, rfl, ?_, rfl, ?_⟩
  · simp only [getProcessingJobByVideoId, h2, Option.map_some']
  · simp only [getVideo, getEntry_setEntry_self]
  · intro env₂
    simp only [processVideo, processVideoTry, getVideo, hv', createProcessingJob,
      updateProcessingJob, getEntry_setEntry_self, setEntry_setEntry, recordJobWrite, tick,
      strOrEmpty, hu, hf, Option.getD_none, Option.getD_some, ne_eq, not_true_eq_false,
      if_false, getProcessingJobByVideoId, updateVideo, applyJobPatch, applyVideoPatch,
      h1, h2, Option.map_some, Option.map_some', beq_self_eq_true]

/-- Witness for C3 at concrete inputs: running the pipeline on a sourceless
item marks the job and the item failed with the no-source error. -/
theorem C3_no_source_fails_witness :
    ∃ w' j v', processVideo sampleEnvOk 0 sampleSourcelessWorld = (.ok (), w') ∧
      getProcessingJobByVideoId w'.store 0 = some j ∧
      j.status = "failed" ∧ j.error = some "No video source available" ∧
      getVideo w'.store 0 = some v' ∧ v'.status = "failed" ∧
      (∀ env₂ : Env, processVideo env₂ 0 sampleSourcelessWorld =
        processVideo sampleEnvOk 0 sampleSourcelessWorld) :=
  C3_no_source_fails sampleEnvOk 0 sampleSourcelessWorld sampleSourcelessVideo
    (by decide) (by decide) (by decide) (by decide)

/-- C8 counterexample: the regenerate-audio route always writes the fixed
path `temp/{videoId}_speech_updated.mp3`, so regenerating twice stores the
same audio reference the summary already carried — it is not distinct from
every previously stored reference. The second run still answers 200. -/
theorem C8_counterexample_repeated_path :
    (getSummary (regenerateAudioRoute sampleEnvOk sampleSummaryStore 1).2 1).map
        (fun s => s.audioUrl) = some (some "/repo/temp/7_speech_updated.mp3") ∧
    (getSummary (regenerateAudioRoute sampleEnvOk
        (regenerateAudioRoute sampleEnvOk sampleSummaryStore 1).2 1).2 1).map
        (fun s => s.audioUrl) = some (some "/repo/temp/7_speech_updated.mp3") ∧
    (regenerateAudioRoute sampleEnvOk
        (regenerateAudioRoute sampleEnvOk sampleSummaryStore 1).2 1).1.1 = 200 :=
  ⟨by decide, by decide, by decide⟩

/-- C8 (amended): regenerating audio for a stored summary (when synthesis
and the file write succeed) answers 200 and sets the summary's audio
reference to the fixed per-item path `temp/{videoId}_speech_updated.mp3` —
the same path on every regeneration, distinct from the pipeline's
`temp/{videoId}_speech.mp3` — while leaving content, edited flag, style,
voice, speed and the final-media reference unchanged. -/
theorem C8_regenerate_audio_contract (env : Env) (s : MemStorage) (id : Id)
    (s0 : Summary) (buf : String)
    (hs : getEntry id s.summaries = some s0) (hid : s0.id = id)
    (hsp : env.generateSpeech s0.content s0.voiceId s0.speechSpeed = .ok buf)
    (hwr : env.writeFile (updatedSpeechPath s0.videoId) buf = .ok ()) :
    ∃ s' st, regenerateAudioRoute env s id = ((200, some s'), st) ∧
      getSummary st id = some s' ∧
      s'.audioUrl = some (updatedSpeechPath s0.videoId) ∧
      s'.content = s0.content ∧ s'.isEdited = s0.isEdited ∧ s'.style = s0.style ∧
      s'.voiceId = s0.voiceId ∧ s'.speechSpeed = s0.speechSpeed ∧
      s'.finalVideoUrl = s0.finalVideoUrl := by
  refine ⟨applySummaryPatch s0 { audioUrl := some (some (updatedSpeechPath s0.videoId)) },
    { s with
      summaries :=
        setEntry id
          (applySummaryPatch s0 { audioUrl := some (some (updatedSpeechPath s0.videoId)) })
          s.summaries },
    ?_, ?_, ?_, ?_, ?_, ?_, ?_, ?_, ?_⟩
  · simp only [regenerateAudioRoute, getSummary, hs, hsp, hwr, updateSummary, hid]
  · simp [getSummary, getEntry_setEntry_self]
  · simp [applySummaryPatch]
  · simp [applySummaryPatch]
  · simp [applySummaryPatch]
  · simp [applySummaryPatch]
  · simp [applySummaryPatch]
  · simp [applySummaryPatch]
  · simp [applySummaryPatch]

/-- Witness for C8 at concrete inputs: regenerating `sampleSummary`'s audio
stores the fixed updated-speech path and leaves its content "hello". -/
theorem C8_regenerate_audio_contract_witness :
    ∃ s' st, regenerateAudioRoute sampleEnvOk sampleSummaryStore 1 = ((200, some s'), st) ∧
      getSummary st 1 = some s' ∧
      s'.audioUrl = some (updatedSpeechPath sampleSummary.videoId) ∧
      s'.content = sampleSummary.content ∧ s'.isEdited = sampleSummary.isEdited ∧
      s'.style = sampleSummary.style ∧ s'.voiceId = sampleSummary.voiceId ∧
      s'.speechSpeed = sampleSummary.speechSpeed ∧
      s'.finalVideoUrl = sampleSummary.finalVideoUrl :=
  C8_regenerate_audio_contract sampleEnvOk sampleSummaryStore 1 sampleSummary "speechbytes"
    (by decide) (by decide) (by decide) (by decide)


/-! ## Characterization of the successful pipeline run -/

/-- Helper: the owner of a summary found by media-item identifier. -/
theorem videoId_of_getSummaryByVideoId (s : MemStorage) (vid : Id) (s0 : Summary)
    (h : getSummaryByVideoId s vid = some s0) : s0.videoId = vid := by
  simp only [getSummaryByVideoId, Option.map_eq_some'] at h
  obtain ⟨p, hp, rfl⟩ := h
  have := List.find?_some hp
  simpa using this

/-- Helper: the stages from the transcribing checkpoint on, when every
external call succeeds and a summary row for the item already exists. -/
theorem fromTranscribing_ok_existing (env : Env) (videoId : Id) (video : Video)
    (jobId : Id) (audioPath : String) (w : World) (jc : ProcessingJob) (vc : Video)
    (s0 : Summary)
    (hj : getEntry jobId w.store.processingJobs = some jc)
    (hjs : jc.status = "processing")
    (hvid : getEntry videoId w.store.videos = some vc)
    (hs0 : getSummaryByVideoId w.store videoId = some s0)
    (hs0e : getEntry s0.id w.store.summaries = some s0)
    (hread : ∀ p, ∃ b, env.readFile p = .ok b)
    (htr : ∀ b, ∃ t, env.transcribeAudio b = .ok t)
    (han : ∀ t ti, ∃ a, env.analyzeVideoContent t ti = .ok a)
    (hgs : ∀ t st d a, ∃ r, env.generateSummary t st d a = .ok r ∧ r.content ≠ "")
    (hsp : ∀ c v sp, ∃ b, env.generateSpeech c v sp = .ok b)
    (hwr : ∀ p b, env.writeFile p b = .ok ()) :
    ∃ wF sF jF,
      pipelineFromTranscribing env videoId video jobId audioPath w = (.ok (), wF) ∧
      wF.jobTrace = w.jobTrace ++
        [⟨some 30, some "transcribing", "processing"⟩,
         ⟨some 50, some "summarizing", "processing"⟩,
         ⟨some 70, some "generating_audio", "processing"⟩,
         ⟨some 90, some "creating_video", "processing"⟩,
         ⟨some 100, some "completed", "completed"⟩] ∧
      wF.store.summaries = setEntry s0.id sF w.store.summaries ∧
      sF.id = s0.id ∧ sF.videoId = s0.videoId ∧ sF.style = s0.style ∧
      sF.targetDuration = s0.targetDuration ∧ sF.voiceId = s0.voiceId ∧
      sF.speechSpeed = s0.speechSpeed ∧ sF.isEdited = s0.isEdited ∧
      sF.createdAt = s0.createdAt ∧ sF.content ≠ "" ∧
      sF.audioUrl = some (speechPath videoId) ∧
      sF.finalVideoUrl = some (speechPath videoId) ∧
      wF.store.videos =
        setEntry videoId (applyVideoPatch vc { status := some "completed" }) w.store.videos ∧
      wF.store.processingJobs = setEntry jobId jF w.store.processingJobs ∧
      jF.status = "completed" ∧ jF.progress = some 100 ∧
      jF.currentStep = some "completed" ∧
      wF.store.nextId = w.store.nextId := by
  obtain ⟨buf, hbuf⟩ := hread audioPath
  obtain ⟨t, ht⟩ := htr buf
  obtain ⟨a, ha⟩ := han t video.title
  obtain ⟨r, hr, hrne⟩ := hgs t s0.style s0.targetDuration a
  obtain ⟨spb, hspb⟩ := hsp r.content s0.voiceId s0.speechSpeed
  have hwrc := hwr (speechPath videoId) spb
  have hs0' := hs0
  simp only [getSummaryByVideoId] at hs0'
  simp only [pipelineFromTranscribing, pipelineFromSummarizing, pipelineFromGeneratingAudio,
    tick, recordJobWrite, updateProcessingJob, updateSummary, updateVideo, hj,
    getEntry_setEntry_self, setEntry_setEntry, hbuf, ht, ha, hs0', hr, hspb, hwrc,
    getSummaryByVideoId, hs0e, hvid, applyJobPatch, applySummaryPatch, applyVideoPatch,
    Option.getD_some, Option.getD_none, hjs]
  refine ⟨_,
    ({ id := s0.id, videoId := s0.videoId, content := r.content, style := s0.style,
       targetDuration := s0.targetDuration, voiceId := s0.voiceId,
       speechSpeed := s0.speechSpeed,
       audioUrl := some (speechPath videoId), finalVideoUrl := some (speechPath videoId),
       isEdited := s0.isEdited, createdAt := s0.createdAt } : Summary),
    ({ id := jc.id, videoId := jc.videoId, status := "completed", progress := some 100,
       currentStep := some "completed", error := jc.error,
       result := some { summaryId := s0.id, audioUrl := speechPath videoId },
       createdAt := jc.createdAt, updatedAt := w.clock + 1 + 1 + 1 + 1 } : ProcessingJob),
    rfl, ?_, rfl, rfl, rfl, rfl, rfl, rfl, rfl, rfl, rfl, hrne, rfl, rfl, rfl, rfl, rfl,
    rfl, rfl, rfl⟩
  simp

/-- Helper: the stages from the transcribing checkpoint on, when every
external call succeeds and no summary row for the item exists yet. -/
theorem fromTranscribing_ok_fresh (env : Env) (videoId : Id) (video : Video)
    (jobId : Id) (audioPath : String) (w : World) (jc : ProcessingJob) (vc : Video)
    (hj : getEntry jobId w.store.processingJobs = some jc)
    (hjs : jc.status = "processing")
    (hvid : getEntry videoId w.store.videos = some vc)
    (hs0 : getSummaryByVideoId w.store videoId = none)
    (hread : ∀ p, ∃ b, env.readFile p = .ok b)
    (htr : ∀ b, ∃ t, env.transcribeAudio b = .ok t)
    (han : ∀ t ti, ∃ a, env.analyzeVideoContent t ti = .ok a)
    (hgs : ∀ t st d a, ∃ r, env.generateSummary t st d a = .ok r ∧ r.content ≠ "")
    (hsp : ∀ c v sp, ∃ b, env.generateSpeech c v sp = .ok b)
    (hwr : ∀ p b, env.writeFile p b = .ok ()) :
    ∃ wF sF jF,
      pipelineFromTranscribing env videoId video jobId audioPath w = (.ok (), wF) ∧
      wF.jobTrace = w.jobTrace ++
        [⟨some 30, some "transcribing", "processing"⟩,
         ⟨some 50, some "summarizing", "processing"⟩,
         ⟨some 70, some "generating_audio", "processing"⟩,
         ⟨some 90, some "creating_video", "processing"⟩,
         ⟨some 100, some "completed", "completed"⟩] ∧
      wF.store.summaries = setEntry w.store.nextId sF w.store.summaries ∧
      sF.id = w.store.nextId ∧ sF.videoId = videoId ∧ sF.style = "informative" ∧
      sF.targetDuration = 60 ∧ sF.voiceId = "alloy" ∧ sF.speechSpeed = "1.0" ∧
      sF.isEdited = false ∧ sF.content ≠ "" ∧
      sF.audioUrl = some (speechPath videoId) ∧
      sF.finalVideoUrl = some (speechPath videoId) ∧
      wF.store.videos =
        setEntry videoId (applyVideoPatch vc { status := some "completed" }) w.store.videos ∧
      wF.store.processingJobs = setEntry jobId jF w.store.processingJobs ∧
      jF.status = "completed" ∧ jF.progress = some 100 ∧
      jF.currentStep = some "completed" ∧
      wF.store.nextId = w.store.nextId + 1 := by
  obtain ⟨buf, hbuf⟩ := hread audioPath
  obtain ⟨t, ht⟩ := htr buf
  obtain ⟨a, ha⟩ := han t video.title
  obtain ⟨r, hr, hrne⟩ := hgs t "informative" 60 a
  obtain ⟨spb, hspb⟩ := hsp r.content "alloy" "1.0"
  have hwrc := hwr (speechPath videoId) spb
  have hs0' := hs0
  simp only [getSummaryByVideoId] at hs0'
  simp only [pipelineFromTranscribing, pipelineFromSummarizing, pipelineFromGeneratingAudio,
    tick, recordJobWrite, updateProcessingJob, updateSummary, updateVideo, createSummary, hj,
    getEntry_setEntry_self, setEntry_setEntry, hbuf, ht, ha, hs0', hr, hspb, hwrc,
    getSummaryByVideoId, hvid, applyJobPatch, applySummaryPatch, applyVideoPatch,
    strOrDefault, ite_self, Option.getD_some, Option.getD_none, hjs]
  refine ⟨_,
    ({ id := w.store.nextId, videoId := videoId, content := r.content, style := "informative",
       targetDuration := 60, voiceId := "alloy", speechSpeed := "1.0",
       audioUrl := some (speechPath videoId), finalVideoUrl := some (speechPath videoId),
       isEdited := false, createdAt := w.clock + 1 + 1 } : Summary),
    ({ id := jc.id, videoId := jc.videoId, status := "completed", progress := some 100,
       currentStep := some "completed", error := jc.error,
       result := some { summaryId := w.store.nextId, audioUrl := speechPath videoId },
       createdAt := jc.createdAt,
       updatedAt := w.clock + 1 + 1 + 1 + 1 + 1 } : ProcessingJob),
    rfl, ?_, rfl, rfl, rfl, rfl, rfl, rfl, rfl, rfl, hrne, rfl, rfl, rfl, rfl, rfl,
    rfl, rfl, rfl⟩
  simp

/-- Helper: the try block up to the end of remote acquisition. -/
theorem processVideoTry_yt (env : Env) (videoId : Id) (w : World) (video : Video)
    (md : VideoMetadata)
    (hv : getEntry videoId w.store.videos = some video)
    (hurl : strOrEmpty video.originalUrl ≠ "")
    (hmd : env.downloadYouTubeVideo (strOrEmpty video.originalUrl) = .ok md) :
    processVideoTry env videoId w =
      pipelineFromTranscribing env videoId video w.store.nextId md.audioPath
        (ytMidWorld videoId video md w) := by
  simp only [processVideoTry, getVideo, hv, createProcessingJob, tick, recordJobWrite,
    updateProcessingJob, getEntry_setEntry_self, setEntry_setEntry, hurl, hmd, updateVideo,
    applyJobPatch, applyVideoPatch, Option.getD_some, Option.getD_none, ytMidWorld,
    analyzedJob, ne_eq, not_false_eq_true, if_true, ite_not, if_false]

/-- Helper: the try block up to the end of local-upload acquisition. -/
theorem processVideoTry_upload (env : Env) (videoId : Id) (w : World) (video : Video)
    (fm : FileMetadata) (ap : String)
    (hv : getEntry videoId w.store.videos = some video)
    (hurl : strOrEmpty video.originalUrl = "")
    (hfile : strOrEmpty video.fileName ≠ "")
    (hfm : env.getVideoMetadata (uploadsPath (strOrEmpty video.fileName)) = .ok fm)
    (hap : env.extractAudioFromFile (uploadsPath (strOrEmpty video.fileName)) = .ok ap) :
    processVideoTry env videoId w =
      pipelineFromTranscribing env videoId video w.store.nextId ap
        (uploadMidWorld videoId video fm w) := by
  simp only [processVideoTry, getVideo, hv, createProcessingJob, tick, recordJobWrite,
    updateProcessingJob, getEntry_setEntry_self, setEntry_setEntry, hurl, hfile, hfm, hap,
    updateVideo, applyJobPatch, applyVideoPatch, Option.getD_some, Option.getD_none,
    uploadMidWorld, analyzedJob, ne_eq, not_false_eq_true, if_true, ite_not, if_false,
    not_true_eq_false]

theorem processVideo_of_try_ok (env : Env) (videoId : Id) (w w1 : World)
    (h : processVideoTry env videoId w = (.ok (), w1)) :
    processVideo env videoId w = (.ok (), w1) := by
  simp [processVideo, h]


/-- C1: on a media item with a populated source field, a successful pipeline
run (each external call succeeding, the summary generator returning non-empty
text) writes the job's (progress, currentStep) pairs in exactly the order
(0, analyzing), (10, analyzing), (30, transcribing), (50, summarizing),
(70, generating_audio), (90, creating_video), (100, completed) — the last
with status "completed" — and at completion the summary associated with the
item has non-empty content. -/
theorem C1_success_progress_order (env : Env) (videoId : Id) (w : World) (video : Video)
    (hv : getVideo w.store videoId = some video)
    (hsrc : strOrEmpty video.originalUrl ≠ "" ∨ strOrEmpty video.fileName ≠ "")
    (hsum : ∀ s0, getSummaryByVideoId w.store videoId = some s0 →
      getEntry s0.id w.store.summaries = some s0)
    (hdl : ∀ u, ∃ m, env.downloadYouTubeVideo u = .ok m)
    (hmeta : ∀ p, ∃ m, env.getVideoMetadata p = .ok m)
    (hext : ∀ p, ∃ a, env.extractAudioFromFile p = .ok a)
    (hread : ∀ p, ∃ b, env.readFile p = .ok b)
    (htr : ∀ b, ∃ t, env.transcribeAudio b = .ok t)
    (han : ∀ t ti, ∃ a, env.analyzeVideoContent t ti = .ok a)
    (hgs : ∀ t st d a, ∃ r, env.generateSummary t st d a = .ok r ∧ r.content ≠ "")
    (hsp : ∀ c v sp, ∃ b, env.generateSpeech c v sp = .ok b)
    (hwr : ∀ p b, env.writeFile p b = .ok ()) :
    ∃ wF, processVideo env videoId w = (.ok (), wF) ∧
      wF.jobTrace = w.jobTrace ++
        [⟨some 0, some "analyzing", "processing"⟩,
         ⟨some 10, some "analyzing", "processing"⟩,
         ⟨some 30, some "transcribing", "processing"⟩,
         ⟨some 50, some "summarizing", "processing"⟩,
         ⟨some 70, some "generating_audio", "processing"⟩,
         ⟨some 90, some "creating_video", "processing"⟩,
         ⟨some 100, some "completed", "completed"⟩] ∧
      ∃ sid sF, getSummary wF.store sid = some sF ∧ sF.videoId = videoId ∧
        sF.content ≠ "" := by
  have hv' : getEntry videoId w.store.videos = some video := hv
  by_cases hurl : strOrEmpty video.originalUrl = ""
  · have hfile : strOrEmpty video.fileName ≠ "" := by
      rcases hsrc with h | h
      · exact absurd hurl h
      · exact h
    obtain ⟨fm, hfm⟩ := hmeta (uploadsPath (strOrEmpty video.fileName))
    obtain ⟨ap, hap⟩ := hext (uploadsPath (strOrEmpty video.fileName))
    have htryeq := processVideoTry_upload env videoId w video fm ap hv' hurl hfile hfm hap
    rcases hcase : getSummaryByVideoId w.store videoId with _ | s0
    · obtain ⟨wF, sF, jF, hrun, htr2, hsums, hsid, hsvid, hsty, htd, hvc, hss, hie, hcne,
        hau, hfu, hvids, hjobs, hjst, hjpr, hjcs, hnx⟩ :=
        fromTranscribing_ok_fresh env videoId video w.store.nextId ap
          (uploadMidWorld videoId video fm w) (analyzedJob videoId w)
          { video with duration := some fm.duration }
          (by simp [uploadMidWorld, getEntry_setEntry_self]) rfl
          (by simp [uploadMidWorld, getEntry_setEntry_self]) hcase hread htr han hgs hsp hwr
      refine ⟨wF, processVideo_of_try_ok env videoId w wF (htryeq.trans hrun), ?_,
        ⟨(uploadMidWorld videoId video fm w).store.nextId, sF, ?_, hsvid, hcne⟩⟩
      · rw [htr2]
        simp [uploadMidWorld]
      · simp [getSummary, hsums, getEntry_setEntry_self]
    · have hs0e := hsum s0 hcase
      obtain ⟨wF, sF, jF, hrun, htr2, hsums, hsid, hsvid, hsty, htd, hvc, hss, hie, hca,
        hcne, hau, hfu, hvids, hjobs, hjst, hjpr, hjcs, hnx⟩ :=
        fromTranscribing_ok_existing env videoId video w.store.nextId ap
          (uploadMidWorld videoId video fm w) (analyzedJob videoId w)
          { video with duration := some fm.duration } s0
          (by simp [uploadMidWorld, getEntry_setEntry_self]) rfl
          (by simp [uploadMidWorld, getEntry_setEntry_self]) hcase hs0e
          hread htr han hgs hsp hwr
      refine ⟨wF, processVideo_of_try_ok env videoId w wF (htryeq.trans hrun), ?_,
        ⟨s0.id, sF, ?_, ?_, hcne⟩⟩
      · rw [htr2]
        simp [uploadMidWorld]
      · simp [getSummary, hsums, getEntry_setEntry_self]
      · rw [hsvid]
        exact videoId_of_getSummaryByVideoId w.store videoId s0 hcase
  · obtain ⟨md, hmd⟩ := hdl (strOrEmpty video.originalUrl)
    have htryeq := processVideoTry_yt env videoId w video md hv' hurl hmd
    rcases hcase : getSummaryByVideoId w.store videoId with _ | s0
    · obtain ⟨wF, sF, jF, hrun, htr2, hsums, hsid, hsvid, hsty, htd, hvc, hss, hie, hcne,
        hau, hfu, hvids, hjobs, hjst, hjpr, hjcs, hnx⟩ :=
        fromTranscribing_ok_fresh env videoId video w.store.nextId md.audioPath
          (ytMidWorld videoId video md w) (analyzedJob videoId w)
          { video with title := md.title, duration := some md.duration,
                       thumbnailUrl := some md.thumbnail }
          (by simp [ytMidWorld, getEntry_setEntry_self]) rfl
          (by simp [ytMidWorld, getEntry_setEntry_self]) hcase hread htr han hgs hsp hwr
      refine ⟨wF, processVideo_of_try_ok env videoId w wF (htryeq.trans hrun), ?_,
        ⟨(ytMidWorld videoId video md w).store.nextId, sF, ?_, hsvid, hcne⟩⟩
      · rw [htr2]
        simp [ytMidWorld]
      · simp [getSummary, hsums, getEntry_setEntry_self]
    · have hs0e := hsum s0 hcase
      obtain ⟨wF, sF, jF, hrun, htr2, hsums, hsid, hsvid, hsty, htd, hvc, hss, hie, hca,
        hcne, hau, hfu, hvids, hjobs, hjst, hjpr, hjcs, hnx⟩ :=
        fromTranscribing_ok_existing env videoId video w.store.nextId md.audioPath
          (ytMidWorld videoId video md w) (analyzedJob videoId w)
          { video with title := md.title, duration := some md.duration,
                       thumbnailUrl := some md.thumbnail } s0
          (by simp [ytMidWorld, getEntry_setEntry_self]) rfl
          (by simp [ytMidWorld, getEntry_setEntry_self]) hcase hs0e
          hread htr han hgs hsp hwr
      refine ⟨wF, processVideo_of_try_ok env videoId w wF (htryeq.trans hrun), ?_,
        ⟨s0.id, sF, ?_, ?_, hcne⟩⟩
      · rw [htr2]
        simp [ytMidWorld]
      · simp [getSummary, hsums, getEntry_setEntry_self]
      · rw [hsvid]
        exact videoId_of_getSummaryByVideoId w.store videoId s0 hcase

/-- C10: for a summary that exists before the pipeline runs for its media
item, a successful run writes only the summary's content, audioUrl and
finalVideoUrl; identifiers, style, targetDuration, voiceId, speechSpeed,
isEdited and createdAt are unchanged, and every other summary record in the
store is untouched. -/
theorem C10_pipeline_summary_frame (env : Env) (videoId : Id) (w : World) (video : Video)
    (s0 : Summary)
    (hv : getVideo w.store videoId = some video)
    (hsrc : strOrEmpty video.originalUrl ≠ "" ∨ strOrEmpty video.fileName ≠ "")
    (hs0 : getSummaryByVideoId w.store videoId = some s0)
    (hs0e : getEntry s0.id w.store.summaries = some s0)
    (hdl : ∀ u, ∃ m, env.downloadYouTubeVideo u = .ok m)
    (hmeta : ∀ p, ∃ m, env.getVideoMetadata p = .ok m)
    (hext : ∀ p, ∃ a, env.extractAudioFromFile p = .ok a)
    (hread : ∀ p, ∃ b, env.readFile p = .ok b)
    (htr : ∀ b, ∃ t, env.transcribeAudio b = .ok t)
    (han : ∀ t ti, ∃ a, env.analyzeVideoContent t ti = .ok a)
    (hgs : ∀ t st d a, ∃ r, env.generateSummary t st d a = .ok r ∧ r.content ≠ "")
    (hsp : ∀ c v sp, ∃ b, env.generateSpeech c v sp = .ok b)
    (hwr : ∀ p b, env.writeFile p b = .ok ()) :
    ∃ wF sF, processVideo env videoId w = (.ok (), wF) ∧
      getSummary wF.store s0.id = some sF ∧
      sF.id = s0.id ∧ sF.videoId = s0.videoId ∧ sF.style = s0.style ∧
      sF.targetDuration = s0.targetDuration ∧ sF.voiceId = s0.voiceId ∧
      sF.speechSpeed = s0.speechSpeed ∧ sF.isEdited = s0.isEdited ∧
      sF.createdAt = s0.createdAt ∧
      sF.audioUrl = some (speechPath videoId) ∧
      sF.finalVideoUrl = some (speechPath videoId) ∧
      (∀ k, k ≠ s0.id → getEntry k wF.store.summaries = getEntry k w.store.summaries) := by
  have hv' : getEntry videoId w.store.videos = some video := hv
  by_cases hurl : strOrEmpty video.originalUrl = ""
  · have hfile : strOrEmpty video.fileName ≠ "" := by
      rcases hsrc with h | h
      · exact absurd hurl h
      · exact h
    obtain ⟨fm, hfm⟩ := hmeta (uploadsPath (strOrEmpty video.fileName))
    obtain ⟨ap, hap⟩ := hext (uploadsPath (strOrEmpty video.fileName))
    have htryeq := processVideoTry_upload env videoId w video fm ap hv' hurl hfile hfm hap
    obtain ⟨wF, sF, jF, hrun, htr2, hsums, hsid, hsvid, hsty, htd, hvc, hss, hie, hca,
      hcne, hau, hfu, hvids, hjobs, hjst, hjpr, hjcs, hnx⟩ :=
      fromTranscribing_ok_existing env videoId video w.store.nextId ap
        (uploadMidWorld videoId video fm w) (analyzedJob videoId w)
        { video with duration := some fm.duration } s0
        (by simp [uploadMidWorld, getEntry_setEntry_self]) rfl
        (by simp [uploadMidWorld, getEntry_setEntry_self]) hs0 hs0e
        hread htr han hgs hsp hwr
    refine ⟨wF, sF, processVideo_of_try_ok env videoId w wF (htryeq.trans hrun), ?_,
      hsid, hsvid, hsty, htd, hvc, hss, hie, hca, hau, hfu, ?_⟩
    · simp [getSummary, hsums, getEntry_setEntry_self]
    · intro k hk
      rw [hsums]
      exact getEntry_setEntry_ne s0.id k sF _ hk
  · obtain ⟨md, hmd⟩ := hdl (strOrEmpty video.originalUrl)
    have htryeq := processVideoTry_yt env videoId w video md hv' hurl hmd
    obtain ⟨wF, sF, jF, hrun, htr2, hsums, hsid, hsvid, hsty, htd, hvc, hss, hie, hca,
      hcne, hau, hfu, hvids, hjobs, hjst, hjpr, hjcs, hnx⟩ :=
      fromTranscribing_ok_existing env videoId video w.store.nextId md.audioPath
        (ytMidWorld videoId video md w) (analyzedJob videoId w)
        { video with title := md.title, duration := some md.duration,
                     thumbnailUrl := some md.thumbnail } s0
        (by simp [ytMidWorld, getEntry_setEntry_self]) rfl
        (by simp [ytMidWorld, getEntry_setEntry_self]) hs0 hs0e
        hread htr han hgs hsp hwr
    refine ⟨wF, sF, processVideo_of_try_ok env videoId w wF (htryeq.trans hrun), ?_,
      hsid, hsvid, hsty, htd, hvc, hss, hie, hca, hau, hfu, ?_⟩
    · simp [getSummary, hsums, getEntry_setEntry_self]
    · intro k hk
      rw [hsums]
      exact getEntry_setEntry_ne s0.id k sF _ hk

/-- Witness for C1 at concrete inputs: a fully successful run over
`sampleWorld` produces exactly the seven job writes in order and a non-empty
summary for the item. -/
theorem C1_success_progress_order_witness :
    ∃ wF, processVideo sampleEnvOk 0 sampleWorld = (.ok (), wF) ∧
      wF.jobTrace = sampleWorld.jobTrace ++
        [⟨some 0, some "analyzing", "processing"⟩,
         ⟨some 10, some "analyzing", "processing"⟩,
         ⟨some 30, some "transcribing", "processing"⟩,
         ⟨some 50, some "summarizing", "processing"⟩,
         ⟨some 70, some "generating_audio", "processing"⟩,
         ⟨some 90, some "creating_video", "processing"⟩,
         ⟨some 100, some "completed", "completed"⟩] ∧
      ∃ sid sF, getSummary wF.store sid = some sF ∧ sF.videoId = 0 ∧
        sF.content ≠ "" :=
  C1_success_progress_order sampleEnvOk 0 sampleWorld sampleVideo (by decide)
    (Or.inl (by decide))
    (fun s0 h => by simp [getSummaryByVideoId, sampleWorld] at h)
    (fun u => ⟨_, rfl⟩) (fun p => ⟨_, rfl⟩) (fun p => ⟨_, rfl⟩) (fun p => ⟨_, rfl⟩)
    (fun b => ⟨_, rfl⟩) (fun t ti => ⟨_, rfl⟩)
    (fun t st d a => ⟨_, rfl, by decide⟩)
    (fun c v sp => ⟨_, rfl⟩) (fun p b => rfl)

/-- Witness for C10 at concrete inputs: a successful run over a world with a
pre-existing summary leaves the summary's user-chosen fields and every other
summary record unchanged. -/
theorem C10_pipeline_summary_frame_witness :
    ∃ wF sF, processVideo sampleEnvOk 0 sampleWorldWithSummary = (.ok (), wF) ∧
      getSummary wF.store samplePipelineSummary.id = some sF ∧
      sF.id = samplePipelineSummary.id ∧
      sF.videoId = samplePipelineSummary.videoId ∧
      sF.style = samplePipelineSummary.style ∧
      sF.targetDuration = samplePipelineSummary.targetDuration ∧
      sF.voiceId = samplePipelineSummary.voiceId ∧
      sF.speechSpeed = samplePipelineSummary.speechSpeed ∧
      sF.isEdited = samplePipelineSummary.isEdited ∧
      sF.createdAt = samplePipelineSummary.createdAt ∧
      sF.audioUrl = some (speechPath 0) ∧
      sF.finalVideoUrl = some (speechPath 0) ∧
      (∀ k, k ≠ samplePipelineSummary.id →
        getEntry k wF.store.summaries =
          getEntry k sampleWorldWithSummary.store.summaries) :=
  C10_pipeline_summary_frame sampleEnvOk 0 sampleWorldWithSummary sampleVideo
    samplePipelineSummary (by decide) (Or.inl (by decide)) (by decide) (by decide)
    (fun u => ⟨_, rfl⟩) (fun p => ⟨_, rfl⟩) (fun p => ⟨_, rfl⟩) (fun p => ⟨_, rfl⟩)
    (fun b => ⟨_, rfl⟩) (fun t ti => ⟨_, rfl⟩)
    (fun t st d a => ⟨_, rfl, by decide⟩)
    (fun c v sp => ⟨_, rfl⟩) (fun p b => rfl)

end VideoSummary
